import Mathlib

/-!
Verification of the outfit-generator's deterministic core against its
natural-language specification.

The Python source (src/agents_service/app.py and src/agents_service/scoring.py)
is shallowly embedded below: dictionaries holding garment data become the
`Item` structure (absent / `None` fields become `Option`/empty lists, matching
the `dict.get` and `safe_get_*` access patterns of the source), Python floats
are modelled as exact rationals (`ℚ`), and Python string operations
(`in`, `.lower()`) are modelled by executable Lean counterparts.
Diagnostic strings that the source builds purely for logging (f-strings that
interpolate item names and so on) are modelled by fixed labels: every claim
under study depends only on the boolean / numeric parts of the results.
-/

namespace OutfitGen

/-- Character-list version of "does `hay` start with `needle`". -/
def charsStartWith : List Char → List Char → Bool
  | [], _ => true
  | _ :: _, [] => false
  | n :: ns, h :: hs => n == h && charsStartWith ns hs

/-- Character-list substring search. -/
def charsHasSub (needle : List Char) : List Char → Bool
  | [] => charsStartWith needle []
  | h :: hs => charsStartWith needle (h :: hs) || charsHasSub needle hs

/-- Python's `needle in hay` on strings (substring containment). -/
def strIn (needle hay : String) : Bool :=
  charsHasSub needle.data hay.data

/-- Python's `str.lower()`: character-wise lowering (the source only ever
compares ASCII keywords).  Defined char-by-char so that proofs can evaluate
it. -/
def strLower (s : String) : String := String.mk (s.data.map Char.toLower)

/-- A garment record.  The Python source passes loosely-typed dicts (or the
pydantic `ClosetItem`) whose fields may be missing or `None`; both read their
fields through `dict.get` / `safe_get_string` / `safe_get_list`, which this
structure models with `Option String` and (possibly empty) `List String`
fields.  `styleTags` and `style_tags` are kept separate because
`calculate_cohesion_score` consults both spellings. -/
structure Item where
  id : String
  name : Option String
  description : Option String
  category : Option String
  subcategory : Option String
  colors : List String
  formality : Option String
  versatility : Option String
  styleTags : List String
  style_tags : List String
  occasions : List String
  season : List String
deriving DecidableEq, Repr

/-- An item with every field absent, used to build concrete test items. -/
def blankItem : Item :=
  ⟨"", none, none, none, none, [], none, none, [], [], [], []⟩

/-- Embeds `item.get('category', '').lower()` -/
def catLower (it : Item) : String := strLower (it.category.getD "")

/-- Embeds `item.get('subcategory', '').lower()` -/
def subcatLower (it : Item) : String := strLower (it.subcategory.getD "")

/-- Embeds `item.get('name', '').lower()` -/
def nameLower (it : Item) : String := strLower (it.name.getD "")

/-! ## Pairwise compatibility (`app.py`: `check_color_compatibility`,
`can_pair_together`) -/

/-- The neutral-colour set of `check_color_compatibility`. -/
def pairNeutrals : List String :=
  ["black", "white", "gray", "grey", "beige", "tan", "cream", "navy", "brown", "khaki"]

/-- The clash-pair blacklist of `check_color_compatibility`. -/
def color_clashes : List (List String) :=
  [["red", "pink"], ["orange", "red"], ["purple", "pink"],
   ["orange", "pink"], ["green", "magenta"], ["yellow", "pink"]]

/-- The complementary whitelist of `check_color_compatibility` (consulted only
after the function has already committed to returning `True`). -/
def complementaryPairs : List (List String) :=
  [["blue", "orange"], ["red", "green"], ["yellow", "purple"], ["teal", "coral"]]

/-- The nested clash loop of `check_color_compatibility`: some colour of the
first list and some colour of the second lie in one clash set without being
equal. -/
def hasClash (c1 c2 : List String) : Bool :=
  c1.any fun x => c2.any fun y =>
    color_clashes.any fun s => s.contains x && s.contains y && x != y

/-- Embeds `check_color_compatibility(colors1, colors2)` from `app.py`, boolean part.
After the empty / all-neutral / clash checks the Python function returns
`True` on every remaining path (neutral-containing, complementary,
monochromatic, and the permissive default), which the final `true` models. -/
def check_color_compatibility (colors1 colors2 : List String) : Bool :=
  if colors1.isEmpty || colors2.isEmpty then true
  else
    let c1 := (colors1.filter fun c => c != "").map strLower
    let c2 := (colors2.filter fun c => c != "").map strLower
    if c1.all (fun c => pairNeutrals.contains c) || c2.all (fun c => pairNeutrals.contains c) then
      true
    else if hasClash c1 c2 then false
    else true

/-- Embeds `casual_group` of `can_pair_together`. -/
def casual_group : List String :=
  ["casual", "very casual", "athleisure", "relaxed", "sporty", "informal", "loungewear"]

/-- Embeds `smart_casual_group` of `can_pair_together`. -/
def smart_casual_group : List String :=
  ["smart-casual", "smart casual", "business casual", "business-casual", "semi-formal"]

/-- Embeds `formal_group` of `can_pair_together`. -/
def formal_group : List String :=
  ["formal", "business", "professional", "black tie", "cocktail", "business-formal"]

/-- Embeds `item.get('formality', '').lower() if item.get('formality') else 'casual'`:
a missing or empty formality string is replaced by `"casual"` before any
grouping happens. -/
def formalityString (f : Option String) : String :=
  let raw := f.getD ""
  if raw = "" then "casual" else strLower raw

/-- The `form1_group` / `form2_group` assignment of `can_pair_together`. -/
def formalityGroupOf (s : String) : Option String :=
  if casual_group.contains s then some "casual"
  else if smart_casual_group.contains s then some "smart-casual"
  else if formal_group.contains s then some "formal"
  else none

/-- The formality-compatibility decision of `can_pair_together` (RULE 5),
taking the already-defaulted formality strings.  The
`not formality1 or not formality2` branch of the source is kept even though
the defaulting above makes it unreachable. -/
def formalityCompatible (formality1 formality2 : String) : Bool :=
  let g1 := formalityGroupOf formality1
  let g2 := formalityGroupOf formality2
  if g1 = g2 then true
  else if (g1 = some "casual" ∧ g2 = some "smart-casual") ∨
          (g1 = some "smart-casual" ∧ g2 = some "casual") then true
  else if (g1 = some "smart-casual" ∧ g2 = some "formal") ∨
          (g1 = some "formal" ∧ g2 = some "smart-casual") then true
  else if formality1 = "" ∨ formality2 = "" then true
  else false

/-- The keys of the `valid_pairs` dict in `can_pair_together`. -/
def valid_pairs_keys : List String :=
  ["top", "bottom", "dress", "outerwear", "shoes", "accessory"]

/-- Embeds `valid_pairs.get(cat, [])` from `can_pair_together`. -/
def valid_pairs_get (c : String) : List String :=
  if c = "top" then ["bottom", "dress", "outerwear", "shoes", "accessory"]
  else if c = "bottom" then ["top", "outerwear", "shoes", "accessory"]
  else if c = "dress" then ["outerwear", "shoes", "accessory"]
  else if c = "outerwear" then ["top", "bottom", "dress", "shoes", "accessory"]
  else if c = "shoes" then ["top", "bottom", "dress", "outerwear", "accessory"]
  else if c = "accessory" then ["top", "bottom", "dress", "outerwear", "shoes", "accessory"]
  else []

/-- Embeds `can_pair_together(item1, item2)` from `app.py`.  The debug-print blocks
are pure logging; the five RULE gates are translated in order (each early
`return False` becomes an `else`-less `false` branch). -/
def can_pair_together (item1 item2 : Item) : Bool :=
  let cat1 := item1.category.getD ""
  let cat2 := item2.category.getD ""
  if cat1 = "" ∨ cat2 = "" ∨ cat1 = "unknown" ∨ cat2 = "unknown" then false
  else if cat1 = cat2 ∧ cat1 ≠ "accessory" then false
  else if valid_pairs_keys.contains cat1 then
    if (valid_pairs_get cat1).contains cat2 then
      if check_color_compatibility item1.colors item2.colors then
        formalityCompatible (formalityString item1.formality) (formalityString item2.formality)
      else false
    else false
  else false

/-! ## Set-level validation (`app.py`: `detect_duplicate_categories`,
`validate_outfit_against_requirements`, `remove_duplicate_items`) -/

/-- Embeds `category_counts.get(c, 0)` of `detect_duplicate_categories`: items whose
lowercased category equals `c`. -/
def category_count (items : List Item) (c : String) : Nat :=
  items.countP fun i => catLower i == c

/-- Embeds `items_by_category[c]` of `detect_duplicate_categories` (order preserved). -/
def items_with_category (items : List Item) (c : String) : List Item :=
  items.filter fun i => catLower i == c

/-- The `has_base` scan for valid top layering: a tank subcategory, or an
undershirt / base-layer name. -/
def tops_have_base (tops : List Item) : Bool :=
  tops.any fun t =>
    strIn "tank" (subcatLower t) || strIn "undershirt" (nameLower t) ||
      strIn "base layer" (nameLower t)

/-- The `has_outer` scan for valid top layering: a cardigan / blazer / jacket
subcategory. -/
def tops_have_outer (tops : List Item) : Bool :=
  tops.any fun t =>
    strIn "cardigan" (subcatLower t) || strIn "blazer" (subcatLower t) ||
      strIn "jacket" (subcatLower t)

/-- The `errors` accumulation of `detect_duplicate_categories` in `app.py`:
one entry per violated rule, in source order.  The Python messages interpolate
the offending item names; the fixed labels below stand for those messages. -/
def duplicate_errors (selected_items : List Item) : List String :=
  (if category_count selected_items "bottom" > 1 then ["Multiple bottoms selected"] else []) ++
  (if category_count selected_items "shoes" > 1 then ["Multiple shoes selected"] else []) ++
  (if category_count selected_items "dress" > 1 then ["Multiple dresses selected"] else []) ++
  (if category_count selected_items "dress" > 0 ∧ category_count selected_items "bottom" > 0 then
    ["Cannot wear dress with separate bottom"] else []) ++
  (if category_count selected_items "top" > 1 then
    (let tops := items_with_category selected_items "top"
     if ¬ (tops_have_base tops = true ∧ tops_have_outer tops = true) then
       ["Multiple tops without valid layering"]
     else [])
   else []) ++
  (if category_count selected_items "outerwear" > 1 then ["Multiple outerwear items"] else [])

/-- Embeds `detect_duplicate_categories(selected_items)` from `app.py`: the
flag is exactly "the error list is non-empty", and the message joins the
errors with `'; '`. -/
def detect_duplicate_categories (selected_items : List Item) : Bool × String :=
  if (duplicate_errors selected_items).isEmpty then (false, "")
  else (true, String.intercalate "; " (duplicate_errors selected_items))

/-- Embeds `OutfitSuggestion` (pydantic model in `app.py`); `score: float` becomes an
exact rational. -/
structure OutfitSuggestion where
  itemIds : List String
  rationale : String
  score : ℚ
  occasion : Option String
  title : String
deriving DecidableEq, Repr

/-- Embeds `OutfitRequirements` (pydantic model in `app.py`); the `int` bounds become
`Int`. -/
structure OutfitRequirements where
  essential_categories : List (List String)
  recommended_categories : List String
  optional_categories : List String
  avoid_categories : List String
  min_items : Int
  max_items : Int
  occasion_type : String
  special_notes : String
deriving DecidableEq, Repr

/-- The `item_lookup = {item.id: item ...}` dict of
`validate_outfit_against_requirements` followed by the per-id lookup: a
Python dict keeps the LAST binding of a repeated key, hence the reversed
search. -/
def resolved_outfit_items (outfit : OutfitSuggestion) (closet_items : List Item) : List Item :=
  outfit.itemIds.filterMap fun iid => closet_items.reverse.find? fun it => it.id == iid

/-- Embeds `validate_outfit_against_requirements(outfit, closet_items, requirements)`
from `app.py`. -/
def validate_outfit_against_requirements (outfit : OutfitSuggestion)
    (closet_items : List Item) (requirements : OutfitRequirements) : Bool :=
  let outfit_items := resolved_outfit_items outfit closet_items
  if outfit_items.isEmpty then false
  else
    let outfit_categories := outfit_items.map Item.category
    let essential_ok :=
      if requirements.essential_categories.isEmpty then true
      else requirements.essential_categories.any fun combo =>
        combo.all fun cat => outfit_categories.contains (some cat)
    if ¬ essential_ok = true then false
    else if requirements.avoid_categories.any
        (fun cat => outfit_categories.contains (some cat)) then false
    else if (outfit_items.length : Int) < requirements.min_items ∨
        (outfit_items.length : Int) > requirements.max_items then false
    else true

/-- The loop of `remove_duplicate_items`, acting on the `zip(item_ids, items)`
pair list with the loop state made explicit: `seenShoes` models the
`seen_shoes` flag and `seenCats` the `seen_categories` set (which only ever
receives `'bottom'` and `'dress'`). -/
def remove_dup_loop : List (String × Item) → Bool → List String → List (String × Item)
  | [], _, _ => []
  | p :: rest, seenShoes, seenCats =>
    let cat := catLower p.2
    if cat = "shoes" then
      if seenShoes then remove_dup_loop rest seenShoes seenCats
      else p :: remove_dup_loop rest true seenCats
    else if cat = "bottom" ∨ cat = "dress" then
      if seenCats.contains cat then remove_dup_loop rest seenShoes seenCats
      else p :: remove_dup_loop rest seenShoes (cat :: seenCats)
    else p :: remove_dup_loop rest seenShoes seenCats

/-- The sanitizer run from its initial state. -/
def remove_dup_pairs (l : List (String × Item)) : List (String × Item) :=
  remove_dup_loop l false []

/-- Embeds `remove_duplicate_items(item_ids, items)` from `app.py`. -/
def remove_duplicate_items (item_ids : List String) (items : List Item) : List String :=
  (remove_dup_pairs (item_ids.zip items)).map Prod.fst

/-! ## Generation orchestrator (`app.py`: `generate_outfit`)

The three lanes (`generate_single_outfit_async` tasks) run under
`asyncio.gather(*outfit_tasks, return_exceptions=True)`: an exception in one
lane is returned as that lane's result object and cannot cancel a sibling
task.  The shallow embedding therefore represents the gathered lane outcomes
as a list of `Except`: `Except.ok` for a lane that produced an
`OutfitSuggestion`, `Except.error` for one whose task raised.  The code
below this point in `generate_outfit` is deterministic and embedded as is;
the best-effort shopping-recommendation step is wrapped in
`try/except` with an empty-list fallback in the source and cannot affect
success or failure, so it is omitted. -/

/-- The `valid_outfits` filtering loop of `generate_outfit`: keep exactly the
lane results that are `OutfitSuggestion`s, in lane order. -/
def valid_outfits (results : List (Except String OutfitSuggestion)) : List OutfitSuggestion :=
  results.filterMap fun r => match r with
    | .ok o => some o
    | .error _ => none

/-- The tail of `generate_outfit` after the gather: raise
`HTTPException(500, ...)` when no lane produced an outfit, otherwise return
the response carrying the successful lanes' outfits. -/
def generate_outfit (results : List (Except String OutfitSuggestion)) :
    Except String (List OutfitSuggestion) :=
  let valid := valid_outfits results
  if valid.isEmpty then Except.error "Failed to generate any valid outfits"
  else Except.ok valid

/-! ## ScoreEngine (`scoring.py`)

All item fields are read through `safe_get_string` / `safe_get_list`, modelled
by `Option.getD` and the plain list fields.  Python float literals (`0.35`,
`0.3`, ...) are modelled as the exact rationals they denote in the source
text.  The `round(x, k)` calls of the source only affect the diagnostic
`details` dicts and the display strings, never the control flow or the
returned score, so the detail records below hold the unrounded values and the
free-text `explanation`s are omitted. -/

/-- Embeds `safe_get_string(item, 'category', 'other')` as used throughout
`scoring.py` (note: no lowercasing here, unlike `app.py`). -/
def scoring_category (it : Item) : String := it.category.getD "other"

/-- Count of items of a given category (`Counter` lookup with default 0). -/
def scoring_cat_count (items : List Item) (c : String) : Nat :=
  items.countP fun i => scoring_category i == c

/-- Embeds `neutral_colors` of `calculate_versatility_score`. -/
def neutral_colors : List String :=
  ["black", "white", "gray", "grey", "navy", "beige", "cream", "tan", "brown"]

/-- Embeds `versatile_colors = neutral_colors | {'denim', 'khaki', 'olive'}`. -/
def versatile_colors : List String := neutral_colors ++ ["denim", "khaki", "olive"]

/-- Per-item colour score of `calculate_versatility_score`: 1.0 for any
versatile colour, 0.5 for any colour data at all, 0.3 otherwise. -/
def item_color_score (it : Item) : ℚ :=
  let item_colors := it.colors.map strLower
  if item_colors.any (fun c => versatile_colors.contains c) then 1
  else if ¬ item_colors.isEmpty then 1/2
  else 3/10

/-- Per-item formality-range score of `calculate_versatility_score`. -/
def item_formality_score (it : Item) : ℚ :=
  let formality := it.formality.getD "casual"
  let versatility := it.versatility.getD "moderate"
  if versatility = "high" then 1
  else if formality = "smart-casual" ∨ formality = "business-casual" then 4/5
  else if versatility = "moderate" then 3/5
  else 2/5

/-- Detail record of `calculate_versatility_score`.  On the empty-wardrobe
path the source returns only a `"reason"` entry; the numeric fields are 0
there. -/
structure VersatilityDetails where
  reason : Option String
  color_versatility : ℚ
  formality_range : ℚ
  category_balance : ℚ
  layering_bonus : ℚ
  total_items : Nat
deriving DecidableEq, Repr

/-- Embeds `calculate_versatility_score(items)` from `scoring.py`. -/
def calculate_versatility_score (items : List Item) : ℚ × VersatilityDetails :=
  if items.isEmpty then (0, ⟨some "No items to analyze", 0, 0, 0, 0, 0⟩)
  else
    let color_scores := items.map item_color_score
    let avg_color_versatility :=
      if color_scores.isEmpty then 0 else color_scores.sum / color_scores.length
    let formality_scores := items.map item_formality_score
    let avg_formality_range :=
      if formality_scores.isEmpty then 0 else formality_scores.sum / formality_scores.length
    let tops := scoring_cat_count items "top"
    let bottoms := scoring_cat_count items "bottom"
    let outerwear := scoring_cat_count items "outerwear"
    let balance_ratio : ℚ :=
      if tops > 0 ∧ bottoms > 0 then (min tops bottoms : ℚ) / (max tops bottoms : ℚ)
      else if tops > 0 ∨ bottoms > 0 then 3/10
      else 1/10
    let layering_bonus : ℚ :=
      min ((outerwear : ℚ) / (max (tops + bottoms) 1 : ℚ) * 2) (1/5)
    let versatility_score :=
      avg_color_versatility * (35/100) + avg_formality_range * (35/100) +
        balance_ratio * (25/100) + layering_bonus * (5/100)
    (min versatility_score 1,
     ⟨none, avg_color_versatility, avg_formality_range, balance_ratio, layering_bonus,
      items.length⟩)

/-- The flattened lowercased colour list of `calculate_cohesion_score`. -/
def all_colors (items : List Item) : List String :=
  items.flatMap fun i => i.colors.map strLower

/-- The colour-harmony band of `calculate_cohesion_score`, keyed on the number
of distinct colours. -/
def color_cohesion_of (items : List Item) : ℚ :=
  let ac := all_colors items
  if ac.isEmpty then 1/2
  else
    let total_colors := ac.dedup.length
    if total_colors ≤ 2 then 4/5
    else if 3 ≤ total_colors ∧ total_colors ≤ 10 then 1
    else if 11 ≤ total_colors ∧ total_colors ≤ 15 then 17/20
    else if 16 ≤ total_colors ∧ total_colors ≤ 20 then 7/10
    else max (1/2) (1 - ((total_colors : ℚ) - 20) * (3/100))

/-- The collected style tags of `calculate_cohesion_score` (`styleTags`, with
`style_tags` as per-item fallback). -/
def all_styles (items : List Item) : List String :=
  items.flatMap fun i => if i.styleTags.isEmpty then i.style_tags else i.styleTags

/-- The dominant styles of `calculate_cohesion_score`: distinct tags (in
first-appearance order, like `Counter.items()`) whose occurrence count is at
least 15% of the item count. -/
def dominant_styles (items : List Item) : List String :=
  (all_styles items).dedup.filter fun s =>
    ((all_styles items).count s : ℚ) ≥ (items.length : ℚ) * (15/100)

/-- The style-consistency component of `calculate_cohesion_score`. -/
def style_consistency_of (items : List Item) : ℚ :=
  if (all_styles items).isEmpty then 1/2
  else if ¬ (dominant_styles items).isEmpty then
    min ((dominant_styles items).length / 3 : ℚ) 1 * (4/5) + 1/5
  else 3/5

/-- Embeds `safe_get_string(item, 'formality', 'casual')`. -/
def formality_str (it : Item) : String := it.formality.getD "casual"

/-- The formality-coherence component of `calculate_cohesion_score`:
`0.75` when more than 30% of the items are `'formal'` AND more than 30% are
`'athletic'` (the most-casual formality tag the source tests for), else
`0.95`. -/
def formalityCoherence (items : List Item) : ℚ :=
  let has_very_formal :=
    ((items.countP fun i => formality_str i == "formal") : ℚ) > (items.length : ℚ) * (3/10)
  let has_very_casual :=
    ((items.countP fun i => formality_str i == "athletic") : ℚ) > (items.length : ℚ) * (3/10)
  if has_very_formal ∧ has_very_casual then 3/4 else 19/20

/-- Detail record of `calculate_cohesion_score`. -/
structure CohesionDetails where
  reason : Option String
  color_harmony : ℚ
  style_consistency : ℚ
  formality_coherence : ℚ
  unique_colors : Nat
  dominant_styles : List String
deriving DecidableEq, Repr

/-- Embeds `calculate_cohesion_score(items)` from `scoring.py`. -/
def calculate_cohesion_score (items : List Item) : ℚ × CohesionDetails :=
  if items.isEmpty then (0, ⟨some "No items to analyze", 0, 0, 0, 0, []⟩)
  else
    let color_cohesion := color_cohesion_of items
    let style_consistency := style_consistency_of items
    let formality_coherence := formalityCoherence items
    let cohesion_score :=
      color_cohesion * (4/10) + style_consistency * (4/10) + formality_coherence * (2/10)
    (min cohesion_score 1,
     ⟨none, color_cohesion, style_consistency, formality_coherence,
      (all_colors items).dedup.length,
      if (all_styles items).isEmpty then [] else dominant_styles items⟩)

/-- Embeds `feminine_indicators` of `detect_wardrobe_style`. -/
def feminine_indicators : List String :=
  ["dress", "skirt", "blouse", "heels", "pumps", "purse", "handbag",
   "bra", "lingerie", "romper", "bodysuit", "leggings"]

/-- Embeds `masculine_indicators` of `detect_wardrobe_style`. -/
def masculine_indicators : List String :=
  ["suit", "tie", "dress-shirt", "boxers", "briefs", "blazer"]

/-- One item's feminine-indicator test in `detect_wardrobe_style` (category or
subcategory in the indicator set, else a keyword inside the name). -/
def item_feminine (it : Item) : Bool :=
  feminine_indicators.contains (catLower it) ||
    feminine_indicators.contains (subcatLower it) ||
    (["dress", "skirt", "blouse", "heel", "pump"].any fun k => strIn k (nameLower it))

/-- One item's masculine-indicator test in `detect_wardrobe_style` (an
independent `if`, so one item can count as both feminine and masculine). -/
def item_masculine (it : Item) : Bool :=
  masculine_indicators.contains (catLower it) ||
    masculine_indicators.contains (subcatLower it) ||
    (["suit", "tie", "boxer", "brief"].any fun k => strIn k (nameLower it))

/-- Embeds `athletic_keywords` of `detect_wardrobe_style`. -/
def athletic_keywords : List String :=
  ["athletic", "sport", "gym", "yoga", "running", "workout"]

/-- Result record of `detect_wardrobe_style` (the free-text `description` and
the unused `has_suits` flag are omitted). -/
structure WardrobeStyle where
  style : String
  confidence : ℚ
  has_dresses : Bool
  has_skirts : Bool
  lifestyle : List String
  feminine_count : Nat
  masculine_count : Nat
deriving DecidableEq, Repr

/-- Embeds `detect_wardrobe_style(items)` from `scoring.py`. -/
def detect_wardrobe_style (items : List Item) : WardrobeStyle :=
  if items.isEmpty then ⟨"neutral", 0, false, false, [], 0, 0⟩
  else
    let fem_count := items.countP item_feminine
    let masc_count := items.countP item_masculine
    let total_gendered := fem_count + masc_count
    let has_dresses := items.any fun i => catLower i == "dress"
    let has_skirts := items.any fun i => catLower i == "skirt"
    let confidence :=
      min ((total_gendered : ℚ) / max ((items.length : ℚ) * (2/10)) 1) 1
    let style :=
      if has_dresses = true ∨ has_skirts = true ∨ fem_count > masc_count * 2 then "feminine"
      else if masc_count > fem_count * 2 ∧ has_dresses = false then "masculine"
      else if fem_count > 0 ∧ masc_count > 0 then "mixed"
      else "neutral"
    let athletic_count := items.countP fun i =>
      athletic_keywords.any fun kw => strIn kw (catLower i) || strIn kw (nameLower i)
    let formal_count := items.countP fun i =>
      ["formal", "business", "professional"].contains (i.formality.getD "")
    let lifestyle :=
      (if (athletic_count : ℚ) > (items.length : ℚ) * (15/100) then ["athletic"] else []) ++
      (if (formal_count : ℚ) > (items.length : ℚ) * (2/10) then ["professional"] else [])
    ⟨style, confidence, has_dresses, has_skirts, lifestyle, fem_count, masc_count⟩

/-- Python dict assignment `d[k] = v` on an insertion-ordered association
list: update in place if the key exists, else append. -/
def dict_set (d : List (String × Nat)) (k : String) (v : Nat) : List (String × Nat) :=
  if d.any fun p => p.1 == k then d.map fun p => if p.1 == k then (k, v) else p
  else d ++ [(k, v)]

/-- Embeds `get_relevant_essentials(wardrobe_style)` from `scoring.py`, producing the
required-quantity table as an insertion-ordered association list. -/
def get_relevant_essentials (ws : WardrobeStyle) : List (String × Nat) :=
  let base_essentials : List (String × Nat) :=
    [("top", 10), ("bottom", 6), ("outerwear", 3), ("shoes", 5)]
  let essentials :=
    if ws.style = "feminine" then
      let e := if ws.has_dresses then dict_set (dict_set base_essentials "dress" 3) "bottom" 5
               else base_essentials
      dict_set e "shoes" 6
    else if ws.style = "masculine" then base_essentials
    else if ws.style = "mixed" then
      (if ws.has_dresses then dict_set base_essentials "dress" 1 else base_essentials)
    else base_essentials
  let essentials :=
    if ws.lifestyle.contains "athletic" then dict_set essentials "activewear" 4 else essentials
  if ws.lifestyle.contains "professional" then
    dict_set (dict_set essentials "top" 12) "bottom" 7
  else essentials

/-- Per-category coverage score of `calculate_completeness_score`.  The source
computes `(actual / recommended) ** 1.5` in floating point; the real-valued
power with exponent 1.5 has no exact rational embedding, so it is passed in
as the `pow15` parameter (instantiated with any function when evaluating). -/
def coverage_score (pow15 : ℚ → ℚ) (items : List Item) (entry : String × Nat) : ℚ :=
  let actual := scoring_cat_count items entry.1
  if actual = 0 then 0
  else if actual ≥ entry.2 then 1
  else pow15 ((actual : ℚ) / (entry.2 : ℚ))

/-- Detail record of `calculate_completeness_score` (label strings with item
counts interpolated are reduced to the category name). -/
structure CompletenessDetails where
  reason : Option String
  category_coverage : ℚ
  occasion_readiness : ℚ
  seasonal_coverage : ℚ
  missing_essentials : List String
  well_covered : List String
  wardrobe_style : String
deriving DecidableEq, Repr

/-- Embeds `calculate_completeness_score(items)` from `scoring.py`, parametrised by
the model `pow15` of the float `** 1.5`. -/
def calculate_completeness_score (pow15 : ℚ → ℚ) (items : List Item) :
    ℚ × CompletenessDetails :=
  if items.isEmpty then (0, ⟨some "No items to analyze", 0, 0, 0, [], [], ""⟩)
  else
    let ws := detect_wardrobe_style items
    let essentials := get_relevant_essentials ws
    let coverage_scores := essentials.map (coverage_score pow15 items)
    let avg_coverage :=
      if coverage_scores.isEmpty then 0 else coverage_scores.sum / coverage_scores.length
    let missing_categories := essentials.filterMap fun e =>
      let actual := scoring_cat_count items e.1
      if actual = 0 then some e.1
      else if actual ≥ e.2 then none
      else if (actual : ℚ) < (e.2 : ℚ) * (7/10) then some e.1
      else none
    let well_covered := essentials.filterMap fun e =>
      if scoring_cat_count items e.1 ≠ 0 ∧ scoring_cat_count items e.1 ≥ e.2 then some e.1
      else none
    let occasions :=
      (items.flatMap fun i => formality_str i :: i.occasions).dedup
    let occasion_coverage := min ((occasions.length : ℚ) / 6) 1
    let all_seasons := (items.flatMap fun i => i.season.map strLower).dedup
    let seasonal_coverage : ℚ :=
      if all_seasons.isEmpty then 1/2 else (all_seasons.length : ℚ) / 4
    let completeness_score :=
      avg_coverage * (5/10) + occasion_coverage * (3/10) + seasonal_coverage * (2/10)
    (min completeness_score 1,
     ⟨none, avg_coverage, occasion_coverage, seasonal_coverage, missing_categories,
      well_covered, ws.style⟩)

/-- The four recognised seasons, in the iteration order of the source's
`weighted_counts` dict. -/
def valid_seasons4 : List String := ["spring", "summer", "fall", "winter"]

/-- The per-item season-normalisation loop of `calculate_seasonal_distribution`:
recognised seasons accumulate in order, and the first `'all-season'` tag
replaces everything accumulated so far with all four seasons and stops. -/
def norm_seasons_loop (acc : List String) : List String → List String
  | [] => acc
  | s :: rest =>
    let sl := strLower s
    if valid_seasons4.contains sl then norm_seasons_loop (acc ++ [sl]) rest
    else if sl = "all-season" then valid_seasons4
    else norm_seasons_loop acc rest

/-- An item's normalised season list; no season data means all four seasons. -/
def item_seasons (it : Item) : List String :=
  let seasons := norm_seasons_loop [] it.season
  if seasons.isEmpty then valid_seasons4 else seasons

/-- An item's weighted contribution to one season's running total:
`1/len(seasons)` for each occurrence of the season in its normalised list. -/
def season_weight (it : Item) (s : String) : ℚ :=
  ((item_seasons it).count s : ℚ) / ((item_seasons it).length : ℚ)

/-- Embeds `weighted_counts[s]` after the accumulation loop. -/
def weighted_count (items : List Item) (s : String) : ℚ :=
  (items.map fun i => season_weight i s).sum

/-- Result record of `calculate_seasonal_distribution`; the percentage fields
hold the exact values (the source rounds them to 3 decimals for display), and
the free-text `distribution_description` is omitted. -/
structure SeasonalDistribution where
  spring_percentage : ℚ
  summer_percentage : ℚ
  fall_percentage : ℚ
  winter_percentage : ℚ
  versatility_metric : ℚ
  primary_season : String
deriving DecidableEq, Repr

/-- Embeds `calculate_seasonal_distribution(items)` from `scoring.py`.  `primary_season`
is Python's `max` over the dict items, which keeps the first maximum in
iteration order spring, summer, fall, winter. -/
def calculate_seasonal_distribution (items : List Item) : SeasonalDistribution :=
  if items.isEmpty then ⟨1/4, 1/4, 1/4, 1/4, 0, "balanced"⟩
  else
    let wspring := weighted_count items "spring"
    let wsummer := weighted_count items "summer"
    let wfall := weighted_count items "fall"
    let wwinter := weighted_count items "winter"
    let total_weight := wspring + wsummer + wfall + wwinter
    let pct := fun (c : ℚ) => if total_weight > 0 then c / total_weight else 1/4
    let pspring := pct wspring
    let psummer := pct wsummer
    let pfall := pct wfall
    let pwinter := pct wwinter
    let versatile_items := items.countP fun i => (item_seasons i).length ≥ 3
    let primary :=
      if pspring ≥ psummer ∧ pspring ≥ pfall ∧ pspring ≥ pwinter then "spring"
      else if psummer ≥ pfall ∧ psummer ≥ pwinter then "summer"
      else if pfall ≥ pwinter then "fall"
      else "winter"
    ⟨pspring, psummer, pfall, pwinter,
     (versatile_items : ℚ) / (items.length : ℚ), primary⟩

/-! ## Concrete items used by witnesses and counterexamples.
Field order: id, name, description, category, subcategory, colors, formality,
versatility, styleTags, style_tags, occasions, season. -/

/-- A bottom-category item with id "b1". -/
def cxBottom : Item :=
  ⟨"b1", none, none, some "bottom", none, [], none, none, [], [], [], []⟩

/-- A dress-category item with id "d1". -/
def cxDress : Item :=
  ⟨"d1", none, none, some "dress", none, [], none, none, [], [], [], []⟩

/-- A top-category item. -/
def cxTop : Item :=
  ⟨"t1", none, none, some "top", none, [], none, none, [], [], [], []⟩

/-- A base-layer top (tank subcategory). -/
def cxTank : Item :=
  ⟨"t2", none, none, some "top", some "tank", [], none, none, [], [], [], []⟩

/-- An outer-layer top (cardigan subcategory). -/
def cxCardigan : Item :=
  ⟨"t3", none, none, some "top", some "cardigan", [], none, none, [], [], [], []⟩

/-- A formal bottom. -/
def cxFormalBottom : Item :=
  ⟨"b2", none, none, some "bottom", none, [], some "formal", none, [], [], [], []⟩

/-! ## Sanitizer lemmas (shared helpers) -/

/-- Pair predicate: the item's lowercased category is `c`. -/
def pairHasCat (c : String) (p : String × Item) : Bool := catLower p.2 == c

/-- Pair predicate: the item's category is none of the three singleton slots. -/
def pairOtherCat (p : String × Item) : Bool :=
  !(catLower p.2 == "shoes" || catLower p.2 == "bottom" || catLower p.2 == "dress")

/-- A lane-result outfit used by the C5 witness. -/
def wOutfitA : OutfitSuggestion := ⟨["a"], "fits", 0, none, "Lane A"⟩

/-- Requirements record with empty constraints and a zero minimum, used by the
C4 counterexample. -/
def cxReqZero : OutfitRequirements := ⟨[], [], [], [], 0, 3, "", ""⟩

/-- A proposal whose single id resolves to nothing against an empty closet. -/
def cxOutfitX : OutfitSuggestion := ⟨["x"], "", 0, none, "X"⟩

/-- Spec-side adjacency relation on formality groups, written from the amended
claim's words: the formality rule passes exactly when the two (possibly
absent) groups are equal — including both sides unclassifiable — or form one
of the two adjacent pairs casual / smart-casual and smart-casual / formal. -/
def formalityGroupsCompatible (g1 g2 : Option String) : Prop :=
  g1 = g2 ∨
    ((g1 = some "casual" ∧ g2 = some "smart-casual") ∨
     (g1 = some "smart-casual" ∧ g2 = some "casual")) ∨
    ((g1 = some "smart-casual" ∧ g2 = some "formal") ∨
     (g1 = some "formal" ∧ g2 = some "smart-casual"))

/-- A bottom-category item with smart-casual formality, for the C8 witness. -/
def cxSmartBottom : Item :=
  ⟨"b3", none, none, some "bottom", none, [], some "smart-casual", none, [], [], [], []⟩

theorem remove_dup_loop_sublist (l : List (String × Item)) (b : Bool) (cs : List String) :
    List.Sublist (remove_dup_loop l b cs) l := by
  induction l generalizing b cs with
  | nil => simp [remove_dup_loop]
  | cons p rest ih =>
    simp only [remove_dup_loop]
    split_ifs with h1 h2 h3 h4
    · exact (ih _ _).cons _
    · exact (ih _ _).cons₂ _
    · exact (ih _ _).cons _
    · exact (ih _ _).cons₂ _
    · exact (ih _ _).cons₂ _

theorem remove_dup_loop_idem (l : List (String × Item)) (b : Bool) (cs : List String) :
    remove_dup_loop (remove_dup_loop l b cs) b cs = remove_dup_loop l b cs := by
  induction l generalizing b cs with
  | nil => simp [remove_dup_loop]
  | cons p rest ih =>
    simp only [remove_dup_loop]
    split_ifs with h1 h2 h3 h4
    · exact ih _ _
    · have hb : b = false := by simpa using h2
      subst hb
      simp only [remove_dup_loop, if_pos h1, if_neg h2]
      exact congrArg (p :: ·) (ih _ _)
    · exact ih _ _
    · simp only [remove_dup_loop, if_neg h1, if_pos h3, if_neg h4]
      exact congrArg (p :: ·) (ih _ _)
    · simp only [remove_dup_loop, if_neg h1, if_neg h3]
      exact congrArg (p :: ·) (ih _ _)

theorem remove_dup_loop_no_shoes (l : List (String × Item)) (cs : List String)
    (q : String × Item) (hq : q ∈ remove_dup_loop l true cs) :
    ¬ catLower q.2 = "shoes" := by
  induction l generalizing cs with
  | nil => simp [remove_dup_loop] at hq
  | cons p rest ih =>
    simp only [remove_dup_loop] at hq
    split_ifs at hq with h1 h3 h4
    · exact ih cs hq
    · exact ih cs hq
    · rcases List.mem_cons.mp hq with hqp | hqr
      · subst hqp; rcases h3 with h | h <;> simp [h]
      · exact ih _ hqr
    · rcases List.mem_cons.mp hq with hqp | hqr
      · subst hqp; exact h1
      · exact ih cs hqr

theorem remove_dup_loop_filter_shoes (l : List (String × Item)) (cs : List String) :
    (remove_dup_loop l false cs).filter (pairHasCat "shoes") =
      (l.filter (pairHasCat "shoes")).take 1 := by
  induction l generalizing cs with
  | nil => simp [remove_dup_loop]
  | cons p rest ih =>
    simp only [remove_dup_loop]
    split_ifs with h1 hF h3 h4
    · exact hF.elim
    · have hpt : pairHasCat "shoes" p = true := by simp [pairHasCat, h1]
      have hnil : (remove_dup_loop rest true cs).filter (pairHasCat "shoes") = [] := by
        rw [List.filter_eq_nil_iff]
        intro q hq
        have := remove_dup_loop_no_shoes rest cs q hq
        simp [pairHasCat, this]
      rw [List.filter_cons, List.filter_cons, hpt, hnil]
      simp
    · have hpf : pairHasCat "shoes" p = false := by simp [pairHasCat, h1]
      rw [ih cs, List.filter_cons, hpf]
      simp
    · have hpf : pairHasCat "shoes" p = false := by simp [pairHasCat, h1]
      rw [List.filter_cons, List.filter_cons, hpf, ih (catLower p.2 :: cs)]
      simp
    · have hpf : pairHasCat "shoes" p = false := by simp [pairHasCat, h1]
      rw [List.filter_cons, List.filter_cons, hpf, ih cs]
      simp

theorem remove_dup_loop_no_cat (l : List (String × Item)) (b : Bool) (cs : List String)
    (c : String) (hcdb : c = "bottom" ∨ c = "dress") (hc : cs.contains c = true)
    (q : String × Item) (hq : q ∈ remove_dup_loop l b cs) :
    ¬ catLower q.2 = c := by
  induction l generalizing b cs with
  | nil => simp [remove_dup_loop] at hq
  | cons p rest ih =>
    simp only [remove_dup_loop] at hq
    split_ifs at hq with h1 h2 h3 h4
    · exact ih b cs hc hq
    · rcases List.mem_cons.mp hq with hqp | hqr
      · subst hqp
        intro hcc
        rw [h1] at hcc
        rcases hcdb with h | h <;> rw [← hcc] at h <;> exact absurd h (by decide)
      · exact ih true cs hc hqr
    · exact ih b cs hc hq
    · rcases List.mem_cons.mp hq with hqp | hqr
      · subst hqp
        intro hcc
        rw [hcc] at h4
        exact h4 hc
      · exact ih b (catLower p.2 :: cs)
          (by have hcm : c ∈ cs := by simpa using hc
              simp [List.contains_cons, hcm]) hqr
    · rcases List.mem_cons.mp hq with hqp | hqr
      · subst hqp
        intro hcc
        exact h3 (by rw [hcc]; exact hcdb)
      · exact ih b cs hc hqr

theorem remove_dup_loop_filter_bd (l : List (String × Item)) (b : Bool) (cs : List String)
    (c : String) (hcdb : c = "bottom" ∨ c = "dress") (hc : cs.contains c = false) :
    (remove_dup_loop l b cs).filter (pairHasCat c) = (l.filter (pairHasCat c)).take 1 := by
  have hcs : ¬ c = "shoes" := by rcases hcdb with h | h <;> subst h <;> decide
  induction l generalizing b cs with
  | nil => simp [remove_dup_loop]
  | cons p rest ih =>
    simp only [remove_dup_loop]
    split_ifs with h1 h2 h3 h4
    · have hpf : pairHasCat c p = false := by
        simp only [pairHasCat, beq_eq_false_iff_ne, ne_eq]
        intro hcc
        exact hcs (hcc ▸ h1)
      rw [ih b cs hc, List.filter_cons, hpf]
      simp
    · have hpf : pairHasCat c p = false := by
        simp only [pairHasCat, beq_eq_false_iff_ne, ne_eq]
        intro hcc
        exact hcs (hcc ▸ h1)
      rw [List.filter_cons, List.filter_cons, hpf, ih true cs hc]
      simp
    · have hpf : pairHasCat c p = false := by
        simp only [pairHasCat, beq_eq_false_iff_ne, ne_eq]
        intro hcc
        rw [hcc] at h4
        rw [h4] at hc
        cases hc
      rw [ih b cs hc, List.filter_cons, hpf]
      simp
    · by_cases hcc : catLower p.2 = c
      · have hpt : pairHasCat c p = true := by simp [pairHasCat, hcc]
        have hnil : (remove_dup_loop rest b (catLower p.2 :: cs)).filter (pairHasCat c) = [] := by
          rw [List.filter_eq_nil_iff]
          intro q hq
          have := remove_dup_loop_no_cat rest b (catLower p.2 :: cs) c hcdb
            (by simp [List.contains_cons, hcc]) q hq
          simp [pairHasCat, this]
        rw [List.filter_cons, List.filter_cons, hpt, hnil]
        simp
      · have hpf : pairHasCat c p = false := by
          simp only [pairHasCat, beq_eq_false_iff_ne, ne_eq]
          intro h
          exact hcc h
        have hc2 : (catLower p.2 :: cs).contains c = false := by
          have hcm : ¬ c ∈ cs := by
            intro hm
            rw [(by simpa using hm : cs.contains c = true)] at hc
            cases hc
          simp only [List.contains_cons, Bool.or_eq_false_iff]
          constructor
          · simp only [beq_eq_false_iff_ne, ne_eq]
            intro h
            exact hcc h.symm
          · simpa using hcm
        rw [List.filter_cons, List.filter_cons, hpf, ih b (catLower p.2 :: cs) hc2]
        simp
    · have hpf : pairHasCat c p = false := by
        simp only [pairHasCat, beq_eq_false_iff_ne, ne_eq]
        intro hcc
        exact h3 (hcc ▸ hcdb)
      rw [List.filter_cons, List.filter_cons, hpf, ih b cs hc]
      simp

theorem remove_dup_loop_filter_other (l : List (String × Item)) (b : Bool) (cs : List String) :
    (remove_dup_loop l b cs).filter pairOtherCat = l.filter pairOtherCat := by
  induction l generalizing b cs with
  | nil => simp [remove_dup_loop]
  | cons p rest ih =>
    simp only [remove_dup_loop]
    split_ifs with h1 h2 h3 h4
    · have hpf : pairOtherCat p = false := by simp [pairOtherCat, h1]
      rw [ih b cs, List.filter_cons, hpf]
      simp
    · have hpf : pairOtherCat p = false := by simp [pairOtherCat, h1]
      rw [List.filter_cons, List.filter_cons, hpf, ih true cs]
    · have hpf : pairOtherCat p = false := by
        rcases h3 with h | h <;> simp [pairOtherCat, h]
      rw [ih b cs, List.filter_cons, hpf]
      simp
    · have hpf : pairOtherCat p = false := by
        rcases h3 with h | h <;> simp [pairOtherCat, h]
      rw [List.filter_cons, List.filter_cons, hpf, ih b (catLower p.2 :: cs)]
    · have hb : ¬ catLower p.2 = "bottom" := fun h => h3 (Or.inl h)
      have hd : ¬ catLower p.2 = "dress" := fun h => h3 (Or.inr h)
      have hpt : pairOtherCat p = true := by simp [pairOtherCat, h1, hb, hd]
      rw [List.filter_cons, List.filter_cons, hpt, ih b cs]

theorem zip_map_fst_sublist (xs : List String) (ys : List Item) :
    List.Sublist ((xs.zip ys).map Prod.fst) xs := by
  induction xs generalizing ys with
  | nil => simp
  | cons x xs ih =>
    cases ys with
    | nil => simp
    | cons y ys => simpa using (ih ys).cons₂ x

theorem zip_map_fst_snd_pairs (l : List (String × Item)) :
    (l.map Prod.fst).zip (l.map Prod.snd) = l := by
  induction l with
  | nil => rfl
  | cons p rest ih => simp [ih]

/-- C2 counterexample: on a proposal holding one bottom-category item and one
dress-category item, the sanitizer keeps BOTH ids, so its output contains a
bottom together with a dress — the claimed merged bottom-or-dress singleton
slot does not exist in the code. -/
theorem remove_duplicate_items_keeps_bottom_with_dress :
    remove_duplicate_items ["b1", "d1"] [cxBottom, cxDress] = ["b1", "d1"] ∧
    catLower cxBottom = "bottom" ∧ catLower cxDress = "dress" := by
  refine ⟨?_, ?_, ?_⟩ <;> decide

/-- C2 (amended): iterating the proposal in original order,
`remove_duplicate_items` keeps only the first occurrence for each of THREE
separate strict singleton slots — shoes, bottom, and dress, with bottom and
dress tracked independently rather than as one merged slot — and keeps every
item of every other category; consequently its output may retain one
bottom-category item and one dress-category item at the same time. -/
theorem remove_duplicate_items_singleton_slots (ids : List String) (items : List Item) :
    ((remove_dup_pairs (ids.zip items)).filter (pairHasCat "shoes") =
      ((ids.zip items).filter (pairHasCat "shoes")).take 1) ∧
    ((remove_dup_pairs (ids.zip items)).filter (pairHasCat "bottom") =
      ((ids.zip items).filter (pairHasCat "bottom")).take 1) ∧
    ((remove_dup_pairs (ids.zip items)).filter (pairHasCat "dress") =
      ((ids.zip items).filter (pairHasCat "dress")).take 1) ∧
    ((remove_dup_pairs (ids.zip items)).filter pairOtherCat =
      (ids.zip items).filter pairOtherCat) ∧
    remove_duplicate_items ids items = (remove_dup_pairs (ids.zip items)).map Prod.fst := by
  refine ⟨?_, ?_, ?_, ?_, rfl⟩
  · exact remove_dup_loop_filter_shoes _ _
  · exact remove_dup_loop_filter_bd _ _ _ _ (Or.inl rfl) rfl
  · exact remove_dup_loop_filter_bd _ _ _ _ (Or.inr rfl) rfl
  · exact remove_dup_loop_filter_other _ _ _

/-- C10: the sanitizer's output id list is a subsequence of the input id list
(original relative order, no new ids), and running the sanitizer again on its
own output together with the surviving item records returns that output
unchanged (idempotence). -/
theorem remove_duplicate_items_subseq_idem (ids : List String) (items : List Item) :
    List.Sublist (remove_duplicate_items ids items) ids ∧
    remove_duplicate_items
        ((remove_dup_pairs (ids.zip items)).map Prod.fst)
        ((remove_dup_pairs (ids.zip items)).map Prod.snd)
      = remove_duplicate_items ids items := by
  constructor
  · exact ((remove_dup_loop_sublist _ _ _).map Prod.fst).trans (zip_map_fst_sublist ids items)
  · show (remove_dup_pairs _).map Prod.fst = _
    rw [show ((remove_dup_pairs (ids.zip items)).map Prod.fst).zip
          ((remove_dup_pairs (ids.zip items)).map Prod.snd)
        = remove_dup_pairs (ids.zip items) from zip_map_fst_snd_pairs _]
    show (remove_dup_loop (remove_dup_loop _ false []) false []).map Prod.fst = _
    rw [remove_dup_loop_idem]
    rfl

/-- C5: with the gathered lane outcomes modelled as a list of `Except`
(`asyncio.gather` with `return_exceptions=True` returns one result object per
lane, so one lane's exception cannot abort a sibling), `generate_outfit`
returns the non-empty list of the successful lanes' outfits whenever at least
one lane succeeded, reports failure exactly when every lane failed, and a
failed lane leaves the sibling lanes' contributions intact. -/
theorem generate_outfit_fails_iff_all_lanes_fail
    (results : List (Except String OutfitSuggestion)) :
    (valid_outfits results ≠ [] →
      generate_outfit results = Except.ok (valid_outfits results)) ∧
    ((∃ msg, generate_outfit results = Except.error msg) ↔
      ∀ r ∈ results, ∃ e, r = Except.error e) ∧
    (∀ (pre post : List (Except String OutfitSuggestion)) (e : String),
      valid_outfits (pre ++ Except.error e :: post) =
        valid_outfits pre ++ valid_outfits post) := by
  have hnil : valid_outfits results = [] ↔ ∀ r ∈ results, ∃ e, r = Except.error e := by
    rw [valid_outfits, List.filterMap_eq_nil_iff]
    constructor
    · intro h r hr
      rcases r with e | o
      · exact ⟨e, rfl⟩
      · exact absurd (h _ hr) (by simp)
    · intro h r hr
      rcases h r hr with ⟨e, rfl⟩
      rfl
  refine ⟨?_, ?_, ?_⟩
  · intro h
    rw [generate_outfit, if_neg (by simpa [List.isEmpty_iff] using h)]
  · constructor
    · rintro ⟨msg, hmsg⟩
      rw [generate_outfit] at hmsg
      by_cases hv : (valid_outfits results).isEmpty
      · exact hnil.mp (by simpa [List.isEmpty_iff] using hv)
      · rw [if_neg hv] at hmsg
        cases hmsg
    · intro hall
      refine ⟨"Failed to generate any valid outfits", ?_⟩
      rw [generate_outfit, if_pos (by simp [List.isEmpty_iff, hnil.mpr hall])]
  · intro pre post e
    simp [valid_outfits, List.filterMap_append]

/-- C5 witness: with one failed lane and one successful lane, the orchestrator
returns the single successful outfit rather than failing. -/
theorem generate_outfit_fails_iff_all_lanes_fail_witness :
    valid_outfits [Except.error "lane crashed", Except.ok wOutfitA] ≠ [] ∧
    generate_outfit [Except.error "lane crashed", Except.ok wOutfitA] =
      Except.ok (valid_outfits [Except.error "lane crashed", Except.ok wOutfitA]) :=
  ⟨List.cons_ne_nil _ _,
   (generate_outfit_fails_iff_all_lanes_fail
      [Except.error "lane crashed", Except.ok wOutfitA]).1 (List.cons_ne_nil _ _)⟩

theorem duplicate_errors_nil_iff (items : List Item) :
    duplicate_errors items = [] ↔
      ¬ (category_count items "bottom" > 1 ∨ category_count items "shoes" > 1 ∨
         category_count items "dress" > 1 ∨
         (category_count items "dress" > 0 ∧ category_count items "bottom" > 0) ∨
         (category_count items "top" > 1 ∧
           ¬ (tops_have_base (items_with_category items "top") = true ∧
              tops_have_outer (items_with_category items "top") = true)) ∨
         category_count items "outerwear" > 1) := by
  have hone : ∀ (c : Prop) (inst : Decidable c) (s : String),
      ((if c then [s] else []) = [] ↔ ¬ c) := by
    intro c inst s
    split_ifs with h <;> simp [h]
  have htwo : ∀ (c d : Prop) (ic : Decidable c) (id : Decidable d) (s : String),
      ((if c then (if d then [s] else []) else ([] : List String)) = [] ↔ ¬ (c ∧ d)) := by
    intro c d ic id s
    split_ifs with h h2
    · simp [h, h2]
    · simp [h, h2]
    · simp [h]
  simp only [duplicate_errors, List.append_eq_nil]
  rw [hone, hone, hone, hone, htwo, hone]
  tauto

theorem detect_duplicate_flag_iff (items : List Item) :
    (detect_duplicate_categories items).1 = true ↔
      (category_count items "bottom" > 1 ∨ category_count items "shoes" > 1 ∨
       category_count items "dress" > 1 ∨
       (category_count items "dress" > 0 ∧ category_count items "bottom" > 0) ∨
       (category_count items "top" > 1 ∧
         ¬ (tops_have_base (items_with_category items "top") = true ∧
            tops_have_outer (items_with_category items "top") = true)) ∨
       category_count items "outerwear" > 1) := by
  rw [← not_iff_not, ← duplicate_errors_nil_iff]
  simp only [detect_duplicate_categories]
  split_ifs with h
  · simp only [List.isEmpty_iff] at h
    simp [h]
  · simp only [List.isEmpty_iff] at h
    simp [h]

/-- C3 counterexample: the concrete set {tank top, cardigan top, dress, bottom}
has tops as its only category with multiplicity two or more and those tops
form a valid base + outer layering pair, yet duplicate detection flags the set
(the dress + bottom rule fires), refuting the claimed "only multiplicity is
tops" biconditional as stated. -/
theorem detect_duplicate_flags_despite_valid_layering :
    (detect_duplicate_categories [cxTank, cxCardigan, cxDress, cxBottom]).1 = true ∧
    tops_have_base (items_with_category [cxTank, cxCardigan, cxDress, cxBottom] "top") = true ∧
    tops_have_outer (items_with_category [cxTank, cxCardigan, cxDress, cxBottom] "top") = true ∧
    category_count [cxTank, cxCardigan, cxDress, cxBottom] "top" = 2 ∧
    category_count [cxTank, cxCardigan, cxDress, cxBottom] "bottom" = 1 ∧
    category_count [cxTank, cxCardigan, cxDress, cxBottom] "shoes" = 0 ∧
    category_count [cxTank, cxCardigan, cxDress, cxBottom] "dress" = 1 ∧
    category_count [cxTank, cxCardigan, cxDress, cxBottom] "outerwear" = 0 := by
  decide

/-- C3 (amended): duplicate detection always flags two or more bottoms, two or
more shoes, two or more dresses, and a dress combined with a bottom; and on a
set whose only multiplicity is two or more tops (bottom, shoes, dress and
outerwear each occur at most once) AND which does not pair a dress with a
bottom, the set is flagged iff the tops do not exhibit valid layering (at
least one base-layer top and at least one outer-layer top). -/
theorem detect_duplicate_categories_characterization :
    (∀ items : List Item,
      category_count items "bottom" ≥ 2 ∨ category_count items "shoes" ≥ 2 ∨
      category_count items "dress" ≥ 2 ∨
      (category_count items "dress" ≥ 1 ∧ category_count items "bottom" ≥ 1) →
      (detect_duplicate_categories items).1 = true) ∧
    (∀ items : List Item,
      category_count items "top" ≥ 2 →
      category_count items "bottom" ≤ 1 →
      category_count items "shoes" ≤ 1 →
      category_count items "dress" ≤ 1 →
      category_count items "outerwear" ≤ 1 →
      ¬ (category_count items "dress" ≥ 1 ∧ category_count items "bottom" ≥ 1) →
      ((detect_duplicate_categories items).1 = true ↔
        ¬ (tops_have_base (items_with_category items "top") = true ∧
           tops_have_outer (items_with_category items "top") = true))) := by
  constructor
  · intro items h
    rw [detect_duplicate_flag_iff]
    rcases h with h | h | h | h
    · exact Or.inl (by omega)
    · exact Or.inr (Or.inl (by omega))
    · exact Or.inr (Or.inr (Or.inl (by omega)))
    · exact Or.inr (Or.inr (Or.inr (Or.inl (by omega))))
  · intro items htop hb hs hd ho hdb
    rw [detect_duplicate_flag_iff]
    constructor
    · intro h
      rcases h with h | h | h | h | h | h
      · omega
      · omega
      · omega
      · exact absurd ⟨h.1, h.2⟩ hdb
      · exact h.2
      · omega
    · intro h
      exact Or.inr (Or.inr (Or.inr (Or.inr (Or.inl ⟨by omega, h⟩))))

/-- C3 witness: two plain layered tops alone are not flagged (the amended
biconditional evaluated where layering is valid), and two bottoms are flagged. -/
theorem detect_duplicate_categories_characterization_witness :
    (detect_duplicate_categories [cxBottom, cxBottom]).1 = true ∧
    ((detect_duplicate_categories [cxTank, cxCardigan]).1 = true ↔
      ¬ (tops_have_base (items_with_category [cxTank, cxCardigan] "top") = true ∧
         tops_have_outer (items_with_category [cxTank, cxCardigan] "top") = true)) :=
  ⟨detect_duplicate_categories_characterization.1 [cxBottom, cxBottom] (by decide),
   detect_duplicate_categories_characterization.2 [cxTank, cxCardigan]
     (by decide) (by decide) (by decide) (by decide) (by decide) (by decide)⟩

/-- C4 counterexample: with empty essential and avoid lists and the inclusive
range [0, 3], a proposal resolving to zero items satisfies all three claimed
conditions, yet the validator rejects it (its early `if not outfit_items`
return), refuting the claimed "if and only if". -/
theorem validate_rejects_empty_resolution :
    validate_outfit_against_requirements cxOutfitX [] cxReqZero = false ∧
    cxReqZero.essential_categories = [] ∧
    cxReqZero.avoid_categories = [] ∧
    cxReqZero.min_items ≤ 0 ∧ (0 : Int) ≤ cxReqZero.max_items ∧
    resolved_outfit_items cxOutfitX [] = [] := by
  decide

/-- C4 (amended): the validator accepts iff the proposal resolves to a
non-empty item list AND the three claimed conditions hold: some inner
essential set fully contained (when essential_categories is non-empty), no
avoided category present, and the resolved count within [min_items,
max_items]. -/
theorem validate_outfit_characterization (outfit : OutfitSuggestion)
    (closet_items : List Item) (requirements : OutfitRequirements) :
    validate_outfit_against_requirements outfit closet_items requirements = true ↔
      (resolved_outfit_items outfit closet_items ≠ [] ∧
       (requirements.essential_categories ≠ [] →
         ∃ combo ∈ requirements.essential_categories,
           ∀ cat ∈ combo,
             some cat ∈ (resolved_outfit_items outfit closet_items).map Item.category) ∧
       (∀ cat ∈ requirements.avoid_categories,
         ¬ some cat ∈ (resolved_outfit_items outfit closet_items).map Item.category) ∧
       requirements.min_items ≤ ((resolved_outfit_items outfit closet_items).length : Int) ∧
       ((resolved_outfit_items outfit closet_items).length : Int) ≤ requirements.max_items) := by
  simp only [validate_outfit_against_requirements]
  split_ifs with h1 h2 h3 h4 <;>
    simp_all [List.isEmpty_iff, List.any_eq_true, List.all_eq_true] <;>
    try omega

/-! ## Symmetry analysis of `can_pair_together` (C1, C8) -/

theorem hasClash_swap (x y : List String) (h : hasClash x y = true) : hasClash y x = true := by
  simp only [hasClash, List.any_eq_true] at h ⊢
  rcases h with ⟨a, ha, b, hb, hs⟩
  refine ⟨b, hb, a, ha, ?_⟩
  simp only [List.any_eq_true, Bool.and_eq_true, bne_iff_ne, ne_eq] at hs ⊢
  rcases hs with ⟨s, hsmem, ⟨hsa, hsb⟩, hne⟩
  exact ⟨s, hsmem, ⟨hsb, hsa⟩, fun e => hne e.symm⟩

theorem hasClash_comm (x y : List String) : hasClash x y = hasClash y x := by
  cases h1 : hasClash x y <;> cases h2 : hasClash y x
  · rfl
  · rw [hasClash_swap y x h2] at h1
    cases h1
  · rw [hasClash_swap x y h1] at h2
    cases h2
  · rfl

theorem check_color_compatibility_comm (u v : List String) :
    check_color_compatibility u v = check_color_compatibility v u := by
  simp only [check_color_compatibility]
  by_cases he : (u.isEmpty || v.isEmpty) = true
  · have he' : (v.isEmpty || u.isEmpty) = true := by
      rwa [Bool.or_comm]
    rw [if_pos he, if_pos he']
  · have he' : ¬ (v.isEmpty || u.isEmpty) = true := by
      rwa [Bool.or_comm]
    rw [if_neg he, if_neg he']
    by_cases hn : (((u.filter fun c => c != "").map strLower).all (fun c => pairNeutrals.contains c) ||
        ((v.filter fun c => c != "").map strLower).all (fun c => pairNeutrals.contains c)) = true
    · have hn' := hn
      rw [Bool.or_comm] at hn'
      rw [if_pos hn, if_pos hn']
    · have hn' := hn
      rw [Bool.or_comm] at hn'
      rw [if_neg hn, if_neg hn', hasClash_comm]

theorem formalityGroupOf_cases (s : String) :
    formalityGroupOf s = some "casual" ∨ formalityGroupOf s = some "smart-casual" ∨
      formalityGroupOf s = some "formal" ∨ formalityGroupOf s = none := by
  unfold formalityGroupOf
  split_ifs <;> simp

theorem formalityCompatible_comm (f1 f2 : String) :
    formalityCompatible f1 f2 = formalityCompatible f2 f1 := by
  simp only [formalityCompatible]
  rcases formalityGroupOf_cases f1 with h1 | h1 | h1 | h1 <;>
    rcases formalityGroupOf_cases f2 with h2 | h2 | h2 | h2 <;>
    rw [h1, h2] <;>
    by_cases he1 : f1 = "" <;> by_cases he2 : f2 = "" <;>
    simp [he1, he2]

theorem mem_valid_pairs_get_mem_keys (A B : String)
    (h : (valid_pairs_get A).contains B = true) : valid_pairs_keys.contains B = true := by
  have hB : B ∈ valid_pairs_get A := by simpa using h
  unfold valid_pairs_get at hB
  split_ifs at hB <;>
    first
      | exact absurd hB (List.not_mem_nil B)
      | (fin_cases hB <;> decide)

theorem pair_table_swap_bounded :
    ∀ A ∈ valid_pairs_keys, ∀ B ∈ valid_pairs_keys,
      ¬ (A = "top" ∧ B = "dress") → ¬ (A = "dress" ∧ B = "top") →
      (valid_pairs_get A).contains B = true → (valid_pairs_get B).contains A = true := by
  decide

theorem pair_table_swap (A B : String)
    (h1 : ¬ (A = "top" ∧ B = "dress")) (h2 : ¬ (A = "dress" ∧ B = "top"))
    (hA : valid_pairs_keys.contains A = true)
    (hAB : (valid_pairs_get A).contains B = true) :
    valid_pairs_keys.contains B = true ∧ (valid_pairs_get B).contains A = true := by
  have hBk := mem_valid_pairs_get_mem_keys A B hAB
  exact ⟨hBk,
    pair_table_swap_bounded A (by simpa using hA) B (by simpa using hBk) h1 h2 hAB⟩

theorem ite_gate3 (k m c x : Bool) :
    (if k then (if m then (if c then x else false) else false) else false) =
      if k = true ∧ m = true then (if c then x else false) else false := by
  cases k <;> cases m <;> simp

/-- C1 counterexample: a plain top and a plain dress (no colours, no
formality, so the colour and formality rules pass) are pairable in the order
(top, dress) but not in the order (dress, top): the `valid_pairs` table lists
`dress` among top's complements but not `top` among dress's, so the pairwise
verdict is not order-independent. -/
theorem can_pair_together_asymmetric_top_dress :
    can_pair_together cxTop cxDress = true ∧ can_pair_together cxDress cxTop = false := by
  decide

/-- C1 (amended): the pairwise verdict is order-independent for every pair of
items EXCEPT those whose categories are `top` and `dress` (in either
assignment): whenever the two categories are not {top, dress},
`can_pair_together(a, b) = can_pair_together(b, a)`. -/
theorem can_pair_together_symm (a b : Item)
    (h1 : ¬ (a.category.getD "" = "top" ∧ b.category.getD "" = "dress"))
    (h2 : ¬ (a.category.getD "" = "dress" ∧ b.category.getD "" = "top")) :
    can_pair_together a b = can_pair_together b a := by
  simp only [can_pair_together]
  by_cases g1 : a.category.getD "" = "" ∨ b.category.getD "" = "" ∨
      a.category.getD "" = "unknown" ∨ b.category.getD "" = "unknown"
  · have g1' : b.category.getD "" = "" ∨ a.category.getD "" = "" ∨
        b.category.getD "" = "unknown" ∨ a.category.getD "" = "unknown" := by tauto
    rw [if_pos g1, if_pos g1']
  · have g1' : ¬ (b.category.getD "" = "" ∨ a.category.getD "" = "" ∨
        b.category.getD "" = "unknown" ∨ a.category.getD "" = "unknown") := by tauto
    rw [if_neg g1, if_neg g1']
    by_cases g2 : a.category.getD "" = b.category.getD "" ∧ a.category.getD "" ≠ "accessory"
    · have g2' : b.category.getD "" = a.category.getD "" ∧ b.category.getD "" ≠ "accessory" :=
        ⟨g2.1.symm, fun h => g2.2 (g2.1.trans h)⟩
      rw [if_pos g2, if_pos g2']
    · have g2' : ¬ (b.category.getD "" = a.category.getD "" ∧ b.category.getD "" ≠ "accessory") := by
        intro hx
        exact g2 ⟨hx.1.symm, fun h => hx.2 (hx.1.trans h)⟩
      rw [if_neg g2, if_neg g2', ite_gate3, ite_gate3]
      by_cases g3 : valid_pairs_keys.contains (a.category.getD "") = true ∧
          (valid_pairs_get (a.category.getD "")).contains (b.category.getD "") = true
      · have g3' := pair_table_swap _ _ h1 h2 g3.1 g3.2
        rw [if_pos g3, if_pos g3',
          check_color_compatibility_comm a.colors b.colors,
          formalityCompatible_comm (formalityString a.formality) (formalityString b.formality)]
      · have g3' : ¬ (valid_pairs_keys.contains (b.category.getD "") = true ∧
            (valid_pairs_get (b.category.getD "")).contains (a.category.getD "") = true) := by
          intro hx
          exact g3 (pair_table_swap _ _ (fun hy => h2 ⟨hy.2, hy.1⟩) (fun hy => h1 ⟨hy.2, hy.1⟩)
            hx.1 hx.2)
        rw [if_neg g3, if_neg g3']

/-- C1 witness: a top and a bottom item, where symmetry does hold. -/
theorem can_pair_together_symm_witness :
    can_pair_together cxTop cxBottom = can_pair_together cxBottom cxTop :=
  can_pair_together_symm cxTop cxBottom (by decide) (by decide)

theorem strLower_eq_empty_iff (s : String) : strLower s = "" ↔ s = "" := by
  constructor
  · intro h
    have hd : s.data.map Char.toLower = [] := congrArg String.data h
    have : s.data = [] := List.map_eq_nil_iff.mp hd
    cases s
    simp_all
  · intro h
    subst h
    rfl

theorem formalityString_ne_empty (f : Option String) : formalityString f ≠ "" := by
  simp only [formalityString]
  split_ifs with h
  · decide
  · intro hc
    exact h ((strLower_eq_empty_iff _).mp hc)

theorem formalityCompatible_true_iff (f1 f2 : String) (h1 : f1 ≠ "") (h2 : f2 ≠ "") :
    formalityCompatible f1 f2 = true ↔
      formalityGroupsCompatible (formalityGroupOf f1) (formalityGroupOf f2) := by
  simp only [formalityCompatible, formalityGroupsCompatible]
  split_ifs with hA hB hC hD
  · simp [hA]
  · simp [hB]
  · simp [hC]
  · rcases hD with h | h
    · exact absurd h h1
    · exact absurd h h2
  · simp only [Bool.false_eq_true, false_iff]
    tauto

/-- C8 counterexample: an item with NO formality field is grouped as casual
(the code substitutes `'casual'` for missing formality) rather than being
treated permissively, so pairing it with a formal-group item fails even
though the category and colour rules pass — refuting the claimed permissive
default for missing formality. -/
theorem can_pair_missing_formality_fails :
    cxTop.formality = none ∧
    formalityGroupOf (formalityString cxTop.formality) = some "casual" ∧
    formalityGroupOf (formalityString cxFormalBottom.formality) = some "formal" ∧
    (valid_pairs_get "top").contains "bottom" = true ∧
    check_color_compatibility cxTop.colors cxFormalBottom.colors = true ∧
    can_pair_together cxTop cxFormalBottom = false := by
  decide

/-- C8 (amended): for items passing the category and colour rules, the overall
verdict equals the formality rule, and that rule passes iff — after replacing
a missing or empty formality by `'casual'` — the two formality groups are
equal (an unclassifiable formality only matches another unclassifiable one)
or adjacent (casual with smart-casual, or smart-casual with formal).  In
particular casual with formal fails, and missing formality is NOT permissive:
it behaves exactly like `'casual'`. -/
theorem can_pair_formality_rule (a b : Item)
    (hg1 : ¬ (a.category.getD "" = "" ∨ b.category.getD "" = "" ∨
      a.category.getD "" = "unknown" ∨ b.category.getD "" = "unknown"))
    (hg2 : ¬ (a.category.getD "" = b.category.getD "" ∧ a.category.getD "" ≠ "accessory"))
    (hk : valid_pairs_keys.contains (a.category.getD "") = true)
    (hm : (valid_pairs_get (a.category.getD "")).contains (b.category.getD "") = true)
    (hc : check_color_compatibility a.colors b.colors = true) :
    can_pair_together a b = true ↔
      formalityGroupsCompatible (formalityGroupOf (formalityString a.formality))
        (formalityGroupOf (formalityString b.formality)) := by
  rw [show can_pair_together a b =
      formalityCompatible (formalityString a.formality) (formalityString b.formality) by
    simp only [can_pair_together]
    rw [if_neg hg1, if_neg hg2, if_pos hk, if_pos hm, if_pos hc]]
  exact formalityCompatible_true_iff _ _
    (formalityString_ne_empty a.formality) (formalityString_ne_empty b.formality)

/-- C8 witness: a casual top against a smart-casual bottom — adjacent groups,
so the amended rule and the verdict agree (both positive). -/
theorem can_pair_formality_rule_witness :
    can_pair_together cxTop cxSmartBottom = true ↔
      formalityGroupsCompatible (formalityGroupOf (formalityString cxTop.formality))
        (formalityGroupOf (formalityString cxSmartBottom.formality)) :=
  can_pair_formality_rule cxTop cxSmartBottom
    (by decide) (by decide) (by decide) (by decide) (by decide)

/-! ## Seasonal distribution (C7) -/

theorem norm_seasons_loop_mem (rest : List String) (acc : List String)
    (hacc : ∀ x ∈ acc, x ∈ valid_seasons4) :
    ∀ x ∈ norm_seasons_loop acc rest, x ∈ valid_seasons4 := by
  induction rest generalizing acc with
  | nil => simpa [norm_seasons_loop] using hacc
  | cons s r ih =>
    simp only [norm_seasons_loop]
    split_ifs with hin hall
    · refine ih (acc ++ [strLower s]) ?_
      intro x hx
      rcases List.mem_append.mp hx with hx | hx
      · exact hacc x hx
      · rcases List.mem_singleton.mp hx with rfl
        simpa using hin
    · exact fun x hx => hx
    · exact ih acc hacc

theorem item_seasons_nonempty (it : Item) : item_seasons it ≠ [] := by
  simp only [item_seasons]
  split_ifs with h
  · decide
  · simpa [List.isEmpty_iff] using h

theorem item_seasons_mem (it : Item) : ∀ x ∈ item_seasons it, x ∈ valid_seasons4 := by
  simp only [item_seasons]
  split_ifs with h
  · intro x hx
    exact hx
  · exact norm_seasons_loop_mem it.season [] (by simp)

theorem count_four_eq_length (l : List String) (h : ∀ x ∈ l, x ∈ valid_seasons4) :
    l.count "spring" + l.count "summer" + l.count "fall" + l.count "winter" = l.length := by
  induction l with
  | nil => simp
  | cons x r ih =>
    have hx := h x (List.mem_cons_self x r)
    have hr := ih fun y hy => h y (List.mem_cons_of_mem x hy)
    have hx' : x = "spring" ∨ x = "summer" ∨ x = "fall" ∨ x = "winter" := by
      simpa [valid_seasons4] using hx
    rcases hx' with rfl | rfl | rfl | rfl <;>
      simp [List.count_cons, hr] <;> omega

theorem item_weight_sum (it : Item) :
    season_weight it "spring" + season_weight it "summer" +
      season_weight it "fall" + season_weight it "winter" = 1 := by
  simp only [season_weight, div_add_div_same]
  have h0 : (item_seasons it).length ≠ 0 := by
    intro h
    exact item_seasons_nonempty it (List.length_eq_zero.mp h)
  have hlen : ((item_seasons it).length : ℚ) ≠ 0 := by exact_mod_cast h0
  have hc : (((item_seasons it).count "spring" : ℚ) + ((item_seasons it).count "summer" : ℚ) +
      ((item_seasons it).count "fall" : ℚ) + ((item_seasons it).count "winter" : ℚ))
      = (((item_seasons it).length : ℚ)) := by
    exact_mod_cast count_four_eq_length (item_seasons it) (item_seasons_mem it)
  rw [hc]
  exact div_self hlen

theorem sum_map_add_q (l : List Item) (f g : Item → ℚ) :
    (l.map fun x => f x + g x).sum = (l.map f).sum + (l.map g).sum := by
  induction l with
  | nil => simp
  | cons x r ih =>
    simp [ih]
    ring

theorem total_weight_eq_length (items : List Item) :
    weighted_count items "spring" + weighted_count items "summer" +
      weighted_count items "fall" + weighted_count items "winter" = (items.length : ℚ) := by
  simp only [weighted_count]
  rw [← sum_map_add_q, ← sum_map_add_q, ← sum_map_add_q]
  rw [List.map_congr_left fun i _ => item_weight_sum i]
  induction items with
  | nil => simp
  | cons x r ih =>
    simp [ih]
    ring

/-- C7: for every item list — the empty list and untagged items included — the
four seasonal percentages of `calculate_seasonal_distribution` sum to exactly
1 (the source only rounds them for display): an item's normalised season list
is never empty (no tags or an `'all-season'` tag mean all four seasons), each
of its k entries carries weight 1/k, and the totals are normalised by their
sum. -/
theorem seasonal_distribution_sums_to_one (items : List Item) :
    (calculate_seasonal_distribution items).spring_percentage +
      (calculate_seasonal_distribution items).summer_percentage +
      (calculate_seasonal_distribution items).fall_percentage +
      (calculate_seasonal_distribution items).winter_percentage = 1 := by
  by_cases hempty : items.isEmpty
  · simp [calculate_seasonal_distribution, hempty]
    norm_num
  · have hne : items ≠ [] := by simpa [List.isEmpty_iff] using hempty
    have hpos : (0 : ℚ) < (items.length : ℚ) := by
      exact_mod_cast List.length_pos.mpr hne
    have htot := total_weight_eq_length items
    simp only [calculate_seasonal_distribution, if_neg hempty]
    rw [if_pos (htot ▸ hpos), if_pos (htot ▸ hpos), if_pos (htot ▸ hpos), if_pos (htot ▸ hpos)]
    rw [div_add_div_same, div_add_div_same, div_add_div_same, htot]
    exact div_self (ne_of_gt hpos)

/-! ## Formality coherence of the cohesion score (C9) -/

/-- C9: inside `calculate_cohesion_score` of a non-empty wardrobe, the
formality-coherence component equals 0.75 exactly when strictly more than 30%
of the items have formality `'formal'` AND strictly more than 30% carry the
most-casual tag the source tests for (`'athletic'`), and equals 0.95 in every
other case. -/
theorem cohesion_formality_coherence_iff (items : List Item) (h : items ≠ []) :
    ((calculate_cohesion_score items).2.formality_coherence = 3/4 ↔
      (((items.countP fun i => formality_str i == "formal") : ℚ) >
          (items.length : ℚ) * (3/10) ∧
       ((items.countP fun i => formality_str i == "athletic") : ℚ) >
          (items.length : ℚ) * (3/10))) ∧
    ((calculate_cohesion_score items).2.formality_coherence = 19/20 ↔
      ¬ (((items.countP fun i => formality_str i == "formal") : ℚ) >
          (items.length : ℚ) * (3/10) ∧
         ((items.countP fun i => formality_str i == "athletic") : ℚ) >
          (items.length : ℚ) * (3/10))) := by
  have hempty : ¬ items.isEmpty = true := by simpa [List.isEmpty_iff] using h
  simp only [calculate_cohesion_score, if_neg hempty, formalityCoherence]
  split_ifs with hP
  · constructor
    · simp [hP]
    · constructor
      · intro hq
        norm_num at hq
      · intro hq
        exact absurd hP hq
  · constructor
    · constructor
      · intro hq
        norm_num at hq
      · intro hq
        exact absurd hq hP
    · simp [hP]

/-- C9 witness: a single casual item — neither threshold exceeded, so the
component is 0.95 and not 0.75. -/
theorem cohesion_formality_coherence_iff_witness :
    ((calculate_cohesion_score [cxTop]).2.formality_coherence = 3/4 ↔
      (((([cxTop] : List Item).countP fun i => formality_str i == "formal") : ℚ) >
          (([cxTop] : List Item).length : ℚ) * (3/10) ∧
       ((([cxTop] : List Item).countP fun i => formality_str i == "athletic") : ℚ) >
          (([cxTop] : List Item).length : ℚ) * (3/10))) ∧
    ((calculate_cohesion_score [cxTop]).2.formality_coherence = 19/20 ↔
      ¬ (((([cxTop] : List Item).countP fun i => formality_str i == "formal") : ℚ) >
          (([cxTop] : List Item).length : ℚ) * (3/10) ∧
         ((([cxTop] : List Item).countP fun i => formality_str i == "athletic") : ℚ) >
          (([cxTop] : List Item).length : ℚ) * (3/10))) :=
  cohesion_formality_coherence_iff [cxTop] (List.cons_ne_nil _ _)

/-! ## Score bounds (C6) -/

theorem item_color_score_nonneg (it : Item) : 0 ≤ item_color_score it := by
  simp only [item_color_score]
  split_ifs <;> norm_num

theorem item_formality_score_nonneg (it : Item) : 0 ≤ item_formality_score it := by
  simp only [item_formality_score]
  split_ifs <;> norm_num

theorem ite_avg_nonneg (l : List ℚ) (h : ∀ x ∈ l, 0 ≤ x) :
    0 ≤ (if l.isEmpty = true then 0 else l.sum / (l.length : ℚ)) := by
  split_ifs
  · exact le_refl 0
  · exact div_nonneg (List.sum_nonneg h) (Nat.cast_nonneg _)

theorem color_cohesion_of_nonneg (items : List Item) : 0 ≤ color_cohesion_of items := by
  simp only [color_cohesion_of]
  split_ifs <;> positivity

theorem style_consistency_of_nonneg (items : List Item) : 0 ≤ style_consistency_of items := by
  simp only [style_consistency_of]
  split_ifs <;> positivity

theorem formalityCoherence_nonneg (items : List Item) : 0 ≤ formalityCoherence items := by
  simp only [formalityCoherence]
  split_ifs <;> norm_num

theorem coverage_score_bounds (pow15 : ℚ → ℚ)
    (hpow : ∀ x : ℚ, 0 ≤ x → x ≤ 1 → 0 ≤ pow15 x ∧ pow15 x ≤ 1)
    (items : List Item) (e : String × Nat) : 0 ≤ coverage_score pow15 items e := by
  simp only [coverage_score]
  split_ifs with h1 h2
  · exact le_refl 0
  · norm_num
  · have hr : scoring_cat_count items e.1 < e.2 := Nat.lt_of_not_le h2
    have hrposN : 0 < e.2 := lt_of_le_of_lt (Nat.zero_le _) hr
    have hrpos : (0 : ℚ) < (e.2 : ℚ) := by exact_mod_cast hrposN
    have harg1 : 0 ≤ ((scoring_cat_count items e.1 : ℚ) / (e.2 : ℚ)) :=
      div_nonneg (Nat.cast_nonneg _) (Nat.cast_nonneg _)
    have harg2 : ((scoring_cat_count items e.1 : ℚ) / (e.2 : ℚ)) ≤ 1 := by
      rw [div_le_one hrpos]
      exact_mod_cast le_of_lt hr
    exact (hpow _ harg1 harg2).1

/-- C6: on every non-empty wardrobe each of the three scores lies in [0, 1]
(the versatility / cohesion / completeness weighted sums are non-negative and
the final `min(score, 1.0)` caps them at 1); the empty wardrobe returns score
0 with the explicit reason `"No items to analyze"` from each function; and
the Lean embeddings are total functions, reflecting that the Python bodies
read every field through the `safe_get_*` accessors and can raise no
exception.  The float power `** 1.5` of the completeness partial credit is
abstracted as any function `pow15` mapping [0, 1] into [0, 1]. -/
theorem wardrobe_scores_bounded :
    (∀ items : List Item, items ≠ [] →
      0 ≤ (calculate_versatility_score items).1 ∧ (calculate_versatility_score items).1 ≤ 1) ∧
    (∀ items : List Item, items ≠ [] →
      0 ≤ (calculate_cohesion_score items).1 ∧ (calculate_cohesion_score items).1 ≤ 1) ∧
    (∀ pow15 : ℚ → ℚ, (∀ x : ℚ, 0 ≤ x → x ≤ 1 → 0 ≤ pow15 x ∧ pow15 x ≤ 1) →
      ∀ items : List Item, items ≠ [] →
      0 ≤ (calculate_completeness_score pow15 items).1 ∧
        (calculate_completeness_score pow15 items).1 ≤ 1) ∧
    (calculate_versatility_score [] = (0, ⟨some "No items to analyze", 0, 0, 0, 0, 0⟩)) ∧
    (calculate_cohesion_score [] = (0, ⟨some "No items to analyze", 0, 0, 0, 0, []⟩)) ∧
    (∀ pow15 : ℚ → ℚ,
      calculate_completeness_score pow15 [] =
        (0, ⟨some "No items to analyze", 0, 0, 0, [], [], ""⟩)) := by
  refine ⟨?_, ?_, ?_, rfl, rfl, fun _ => rfl⟩
  · intro items h
    have hempty : ¬ items.isEmpty = true := by simpa [List.isEmpty_iff] using h
    simp only [calculate_versatility_score, if_neg hempty]
    refine ⟨le_min ?_ (by norm_num), min_le_right _ _⟩
    refine add_nonneg (add_nonneg (add_nonneg
      (mul_nonneg ?_ (by norm_num)) (mul_nonneg ?_ (by norm_num)))
      (mul_nonneg ?_ (by norm_num))) (mul_nonneg ?_ (by norm_num))
    · refine ite_avg_nonneg _ ?_
      intro x hx
      rcases List.mem_map.mp hx with ⟨i, _, rfl⟩
      exact item_color_score_nonneg i
    · refine ite_avg_nonneg _ ?_
      intro x hx
      rcases List.mem_map.mp hx with ⟨i, _, rfl⟩
      exact item_formality_score_nonneg i
    · split_ifs <;> positivity
    · positivity
  · intro items h
    have hempty : ¬ items.isEmpty = true := by simpa [List.isEmpty_iff] using h
    simp only [calculate_cohesion_score, if_neg hempty]
    refine ⟨le_min ?_ (by norm_num), min_le_right _ _⟩
    exact add_nonneg (add_nonneg
      (mul_nonneg (color_cohesion_of_nonneg items) (by norm_num))
      (mul_nonneg (style_consistency_of_nonneg items) (by norm_num)))
      (mul_nonneg (formalityCoherence_nonneg items) (by norm_num))
  · intro pow15 hpow items h
    have hempty : ¬ items.isEmpty = true := by simpa [List.isEmpty_iff] using h
    simp only [calculate_completeness_score, if_neg hempty]
    refine ⟨le_min ?_ (by norm_num), min_le_right _ _⟩
    refine add_nonneg (add_nonneg (mul_nonneg ?_ (by norm_num)) (mul_nonneg ?_ (by norm_num)))
      (mul_nonneg ?_ (by norm_num))
    · refine ite_avg_nonneg _ ?_
      intro x hx
      rcases List.mem_map.mp hx with ⟨e, _, rfl⟩
      exact coverage_score_bounds pow15 hpow items e
    · positivity
    · split_ifs <;> positivity

/-- C6 witness: the single-item wardrobe `[cxTop]` with the identity standing
in for the [0,1]-preserving power function — all three scores land in [0,1]. -/
theorem wardrobe_scores_bounded_witness :
    (0 ≤ (calculate_versatility_score [cxTop]).1 ∧
      (calculate_versatility_score [cxTop]).1 ≤ 1) ∧
    (0 ≤ (calculate_cohesion_score [cxTop]).1 ∧ (calculate_cohesion_score [cxTop]).1 ≤ 1) ∧
    (0 ≤ (calculate_completeness_score (fun x => x) [cxTop]).1 ∧
      (calculate_completeness_score (fun x => x) [cxTop]).1 ≤ 1) :=
  ⟨wardrobe_scores_bounded.1 [cxTop] (List.cons_ne_nil _ _),
   wardrobe_scores_bounded.2.1 [cxTop] (List.cons_ne_nil _ _),
   wardrobe_scores_bounded.2.2.1 (fun x => x) (fun _ h1 h2 => ⟨h1, h2⟩) [cxTop]
     (List.cons_ne_nil _ _)⟩

end OutfitGen
